import Mathlib

/-!
Verification of the exam-attempt lifecycle of the exam platform.

The client session (`src/frontend/src/screens/ExamLayout.tsx`) is embedded
shallowly: the React component's state variables become fields of
`SessionState`, each event handler / effect body becomes a case of `step`,
and a run of the single-threaded event loop is a fold of `step` over a list
of events.  Network calls are modelled by explicit counters (`sentCount`,
`inFlight`) and response events, so "a request was sent" is observable in
the state.
-/

namespace ExamPlatform

/-- Palette status of one question, from the `QuestionStatus` union type. -/
inductive QuestionStatus where
  | notVisited
  | notAnswered
  | answered
  | marked
  | answeredMarked
deriving DecidableEq, Repr

/-- Per-question client state (`QuestionState` in ExamLayout.tsx):
the chosen option index (0-based, `null` = none) and the palette status. -/
structure QState where
  selectedOptionIndex : Option Nat
  status : QuestionStatus
deriving DecidableEq, Repr

/-- Copy-and-replace of one slot of the question-state array, as every
handler does with `const next = [...prev]; next[i] = ...`.  Out-of-range
indices leave the array unchanged (the UI only produces in-range ones). -/
def updateAt (qs : List QState) (i : Nat) (f : QState → QState) : List QState :=
  match qs.get? i with
  | some q => qs.set i (f q)
  | none => qs

/-- `handleSelectOption`: record the option; `notVisited`/`notAnswered`
become `answered`, any other status is left unchanged. -/
def selectOptionQS (qs : List QState) (i : Nat) (opt : Nat) : List QState :=
  updateAt qs i fun q =>
    { selectedOptionIndex := some opt
      status :=
        if q.status = .notVisited ∨ q.status = .notAnswered then .answered
        else q.status }

/-- `handleClear`: drop the selection, status becomes `notAnswered`. -/
def clearQS (qs : List QState) (i : Nat) : List QState :=
  updateAt qs i fun q => { q with selectedOptionIndex := none, status := .notAnswered }

/-- `handleSaveAndMarkForReview`: status becomes `answeredMarked`
unconditionally (the handler never inspects the selection). -/
def saveAndMarkQS (qs : List QState) (i : Nat) : List QState :=
  updateAt qs i fun q => { q with status := .answeredMarked }

/-- The marking part of `handleMarkForReviewAndNext`: `answeredMarked` when a
selection exists, `marked` otherwise. -/
def markNextQS (qs : List QState) (i : Nat) : List QState :=
  updateAt qs i fun q =>
    { q with status := if q.selectedOptionIndex.isSome then .answeredMarked else .marked }

/-- The `next[j].status === 'notVisited' → 'notAnswered'` promotion inside
`moveToQuestion`. -/
def visitIfNotVisited (qs : List QState) (i : Nat) : List QState :=
  match qs.get? i with
  | some q => if q.status = .notVisited then qs.set i { q with status := .notAnswered } else qs
  | none => qs

/-- `moveToQuestion`: promote the question being left and the question being
entered out of `notVisited`. -/
def moveToQuestionQS (qs : List QState) (cur idx : Nat) : List QState :=
  visitIfNotVisited (visitIfNotVisited qs cur) idx

/-- Initial question-state array built in `handleStudentDetailsSubmit`:
question 0 starts `notAnswered` (it is shown immediately), the rest
`notVisited`, nothing selected. -/
def initQuestionState (n : Nat) : List QState :=
  (List.range n).map fun i =>
    { selectedOptionIndex := none
      status := if i = 0 then QuestionStatus.notAnswered else QuestionStatus.notVisited }

/-- The React component's state, restricted to the fields the lifecycle
claims are about.  `sentCount` counts submit requests sent to
AttemptService; `inFlight` counts those whose response has not arrived. -/
structure SessionState where
  timeRemaining : Int
  timeOver : Bool
  submitted : Bool
  submitting : Bool
  attemptId : Option Nat
  studentDetails : Bool
  questionState : List QState
  currentIndex : Nat
  numQuestions : Nat
  inFlight : Nat
  sentCount : Nat
deriving DecidableEq, Repr

/-- State right after `fetchExam` succeeds: the timer is loaded with the
exam duration, no attempt exists yet and no details were entered. -/
def mkInitial (n : Nat) (durationSeconds : Int) : SessionState :=
  { timeRemaining := durationSeconds
    timeOver := false
    submitted := false
    submitting := false
    attemptId := none
    studentDetails := false
    questionState := []
    currentIndex := 0
    numQuestions := n
    inFlight := 0
    sentCount := 0 }

/-- Discrete events of the single-threaded client loop: timer interval
firing, the auto-submit effect re-evaluating, a student submit click (with
the confirm-dialog outcome), a submit response arriving, the
`handleStudentDetailsSubmit` network call completing, and the answer /
navigation handlers. -/
inductive Event where
  | tick
  | expiryCheck
  | manualSubmit (confirmOk : Bool)
  | submitResponse (ok : Bool)
  | createAttemptResult (res : Option Nat)
  | selectOption (opt : Nat)
  | clear
  | saveAndMarkForReview
  | markForReviewAndNext
  | moveTo (idx : Nat)
  | saveAndNext
deriving DecidableEq, Repr

/-- Guard under which the exam screen (question area and its buttons) is
rendered and enabled: details entered, not past time, not submitted. -/
def examScreenLive (s : SessionState) : Prop :=
  s.studentDetails = true ∧ s.timeOver = false ∧ s.submitted = false

instance (s : SessionState) : Decidable (examScreenLive s) := by
  unfold examScreenLive; infer_instance

/-- Guard of the auto-submit effect:
`timeRemaining === 0 && !timeOver && !submitted && attemptId`. -/
def expiryReady (s : SessionState) : Prop :=
  s.timeRemaining = 0 ∧ s.timeOver = false ∧ s.submitted = false ∧ s.attemptId.isSome = true

instance (s : SessionState) : Decidable (expiryReady s) := by
  unfold expiryReady; infer_instance

/-- One event processed against the session state, following the handlers
and effects of ExamLayout.tsx case by case. -/
def step (s : SessionState) : Event → SessionState
  | .tick =>
      -- countdown effect: no interval when time is up, over, or submitted;
      -- otherwise decrement clamped at zero
      if s.timeRemaining ≤ 0 ∨ s.timeOver ∨ s.submitted then s
      else
        let n := s.timeRemaining - 1
        { s with timeRemaining := if n < 0 then 0 else n }
  | .expiryCheck =>
      -- auto-submit effect: set timeOver and fire the submit request
      if expiryReady s then
        { s with timeOver := true, inFlight := s.inFlight + 1, sentCount := s.sentCount + 1 }
      else s
  | .manualSubmit confirmOk =>
      -- handleSubmit, reachable only while the exam screen shows and the
      -- submit button is enabled (!submitted && !submitting && attemptId)
      if s.studentDetails = true ∧ s.timeOver = false ∧ s.submitted = false
          ∧ s.submitting = false ∧ s.attemptId.isSome = true ∧ confirmOk = true then
        { s with submitting := true, inFlight := s.inFlight + 1, sentCount := s.sentCount + 1 }
      else s
  | .submitResponse ok =>
      -- resolution of an in-flight submit: on ok the session becomes
      -- submitted; the manual path's finally clears `submitting`
      if s.inFlight = 0 then s
      else
        { s with
            inFlight := s.inFlight - 1
            submitting := false
            submitted := s.submitted || ok }
  | .createAttemptResult res =>
      -- handleStudentDetailsSubmit: on failure nothing is set; on success
      -- attemptId, studentDetails and the question states are initialized
      if s.studentDetails = true then s
      else
        match res with
        | none => s
        | some id =>
            { s with
                attemptId := some id
                studentDetails := true
                questionState := initQuestionState s.numQuestions
                currentIndex := 0 }
  | .selectOption opt =>
      if examScreenLive s then
        { s with questionState := selectOptionQS s.questionState s.currentIndex opt }
      else s
  | .clear =>
      if examScreenLive s then
        { s with questionState := clearQS s.questionState s.currentIndex }
      else s
  | .saveAndMarkForReview =>
      if examScreenLive s then
        { s with questionState := saveAndMarkQS s.questionState s.currentIndex }
      else s
  | .markForReviewAndNext =>
      if examScreenLive s then
        let qs := markNextQS s.questionState s.currentIndex
        if s.currentIndex < s.numQuestions - 1 then
          { s with
              questionState := moveToQuestionQS qs s.currentIndex (s.currentIndex + 1)
              currentIndex := s.currentIndex + 1 }
        else { s with questionState := qs }
      else s
  | .moveTo idx =>
      if examScreenLive s then
        { s with
            questionState := moveToQuestionQS s.questionState s.currentIndex idx
            currentIndex := idx }
      else s
  | .saveAndNext =>
      if examScreenLive s then
        if s.currentIndex < s.numQuestions - 1 then
          { s with
              questionState := moveToQuestionQS s.questionState s.currentIndex (s.currentIndex + 1)
              currentIndex := s.currentIndex + 1 }
        else s
      else s

/-- A run of the event loop. -/
def runTrace (s : SessionState) (evs : List Event) : SessionState :=
  evs.foldl step s

/-- The palette status of slot `j` of a question-state array (out-of-range
slots read as the untouched `notVisited` default). -/
def statusOf (qs : List QState) (j : Nat) : QuestionStatus :=
  ((qs.get? j).getD { selectedOptionIndex := none, status := .notVisited }).status

/-- Before an attempt exists, nothing submission-related has happened: no
submit request was sent or is in flight, and the session is in neither the
time-over nor the submitted state. -/
def noAttemptInv (s : SessionState) : Prop :=
  s.attemptId = none →
    s.sentCount = 0 ∧ s.inFlight = 0 ∧ s.timeOver = false ∧ s.submitted = false

/-! ## Fullscreen-exit tracking (the proctoring watchdog) -/

/-- The fullscreen-tracking state: the `isFullscreen` React state variable
and the cumulative exit counter the backend accumulates from the
`fullscreen-exit` reports. -/
structure FsState where
  isFullscreen : Bool
  exitCount : Nat
deriving DecidableEq, Repr

/-- `handleFullscreenChange`: `currentlyFullscreen` is the live DOM check;
`captured` is the value of the `isFullscreen` state captured by the
closure at the render that registered the listeners.  A detected loss
(`!isCurrentlyFullscreen && isFullscreen`) records the exit and flips the
state off; observing fullscreen flips it on; otherwise nothing happens. -/
def handleFullscreenChange (currentlyFullscreen captured : Bool) (s : FsState) : FsState :=
  if ¬currentlyFullscreen ∧ captured then
    { isFullscreen := false, exitCount := s.exitCount + 1 }
  else if currentlyFullscreen then { s with isFullscreen := true }
  else s

/-- `k` duplicate loss notifications (e.g. `fullscreenchange` plus its
vendor-prefixed twin) delivered in one browser task: every invocation runs
against the same `captured` closure value, because React re-renders — and
re-registers the listeners — only after the task completes. -/
def deliverDuplicates : Nat → Bool → FsState → FsState
  | 0, _, s => s
  | k + 1, captured, s => deliverDuplicates k captured (handleFullscreenChange false captured s)

/-- One physical fullscreen loss delivered as a single detection (the
listener closure freshly re-rendered), acknowledged, and followed by the
granted re-entry into fullscreen. -/
def lossThenReenter (s : FsState) : FsState :=
  let s1 := handleFullscreenChange false s.isFullscreen s
  handleFullscreenChange true s1.isFullscreen s1

/-- `n` acknowledged physical losses in sequence. -/
def iterLossReenter : Nat → FsState → FsState
  | 0, s => s
  | n + 1, s => iterLossReenter n (lossThenReenter s)

/-! ## Server-side scoring (AttemptService.submit) -/

/-- Modelled from the spec: the backend FastAPI application (`main.py`,
holding AttemptService's submit/scoring logic) is not under `src/` — only
its start scripts and README are.  A question as the scorer sees it:
answer key (1-based correct-option index), marks awarded, marks deducted
on a wrong answer. -/
structure ScoredQuestion where
  answer_key : Nat
  marks : Int
  negative_marks : Int
deriving DecidableEq, Repr

/-- Modelled from the spec: per-question contribution — `+marks` when the
selected option equals the answer key, `-negative_marks` when a different
option was selected, `0` when no option was selected. -/
def questionScore (q : ScoredQuestion) (sel : Option Nat) : Int :=
  match sel with
  | none => 0
  | some v => if v = q.answer_key then q.marks else -q.negative_marks

/-- Outcome classification of one answered slot for the Result counts. -/
inductive AnswerOutcome where
  | correct
  | wrong
  | notAttempted
deriving DecidableEq, Repr

/-- Modelled from the spec: `correct` / `wrong` / `not_attempted`
classification of one question's answer. -/
def answerOutcome (q : ScoredQuestion) (sel : Option Nat) : AnswerOutcome :=
  match sel with
  | none => .notAttempted
  | some v => if v = q.answer_key then .correct else .wrong

/-- Modelled from the spec: total score is the sum over all questions of the
per-question contributions (answers are order-aligned with questions). -/
def totalScore (qs : List ScoredQuestion) (ans : List (Option Nat)) : Int :=
  ((qs.zip ans).map fun p => questionScore p.1 p.2).sum

/-- Modelled from the spec: how many question slots landed in a given
outcome class. -/
def countOutcome (qs : List ScoredQuestion) (ans : List (Option Nat)) (o : AnswerOutcome) : Nat :=
  ((qs.zip ans).filter fun p => answerOutcome p.1 p.2 = o).length

/-! ## Basic lemmas about the question-state array -/

theorem updateAt_length (qs : List QState) (i : Nat) (f : QState → QState) :
    (updateAt qs i f).length = qs.length := by
  unfold updateAt
  cases qs.get? i <;> simp

theorem updateAt_get_eq (qs : List QState) (i : Nat) (f : QState → QState)
    (h : i < qs.length) : (updateAt qs i f).get? i = (qs.get? i).map f := by
  unfold updateAt
  cases hq : qs.get? i with
  | none =>
      rw [List.get?_eq_none] at hq
      omega
  | some q =>
      rw [List.get?_set_eq_of_lt _ h]
      rfl

theorem lt_length_of_get_some {qs : List QState} {i : Nat} {q : QState}
    (hq : qs.get? i = some q) : i < qs.length := by
  by_contra h
  rw [List.get?_eq_none.mpr (by omega)] at hq
  cases hq

theorem clearQS_get (qs : List QState) (i : Nat) (h : i < qs.length) :
    (clearQS qs i).get? i = some { selectedOptionIndex := none, status := .notAnswered } := by
  rw [clearQS, updateAt_get_eq _ _ _ h]
  cases hq : qs.get? i with
  | none => rw [List.get?_eq_none] at hq; omega
  | some q => rfl

end ExamPlatform

namespace ExamPlatform

/-- C4: scoring at submission.  The server scoring code is modelled from the
spec (backend `main.py` is absent from `src/`); the worked example: a
2-question exam with marks=4 and negative_marks=1 each, answered
[correct, wrong], scores 4 - 1 = 3 with correct=1, wrong=1,
not_attempted=0; all-unattempted scores 0; the total can be negative
(both wrong gives -2). -/
theorem c4_scoring_example :
    totalScore [⟨1, 4, 1⟩, ⟨2, 4, 1⟩] [some 1, some 3] = 3
    ∧ countOutcome [⟨1, 4, 1⟩, ⟨2, 4, 1⟩] [some 1, some 3] .correct = 1
    ∧ countOutcome [⟨1, 4, 1⟩, ⟨2, 4, 1⟩] [some 1, some 3] .wrong = 1
    ∧ countOutcome [⟨1, 4, 1⟩, ⟨2, 4, 1⟩] [some 1, some 3] .notAttempted = 0
    ∧ totalScore [⟨1, 4, 1⟩, ⟨2, 4, 1⟩] [none, none] = 0
    ∧ countOutcome [⟨1, 4, 1⟩, ⟨2, 4, 1⟩] [none, none] .notAttempted = 2
    ∧ totalScore [⟨1, 4, 1⟩, ⟨2, 4, 1⟩] [some 3, some 1] = -2 := by
  decide

/-- C5 counterexample: selecting an option on a question whose prior status
is `marked` leaves the status `marked`, not `answeredMarked`, even though a
selection now exists — refuting "its status is answeredMarked once an
answer exists". -/
theorem c5_counterexample :
    selectOptionQS [{ selectedOptionIndex := none, status := .marked }] 0 2 =
      [{ selectedOptionIndex := some 2, status := .marked }]
    ∧ QuestionStatus.marked ≠ QuestionStatus.answeredMarked := by
  decide

/-- C5 amended: `selectOption` records the value; prior `notVisited` or
`notAnswered` becomes `answered`; any other prior status (`marked`,
`answeredMarked`, `answered`) is left literally unchanged — in particular a
`marked` question stays `marked` after an answer is recorded. -/
theorem c5_selectOption_behaviour (qs : List QState) (i opt : Nat) (q : QState)
    (hq : qs.get? i = some q) :
    (selectOptionQS qs i opt).get? i =
      some { selectedOptionIndex := some opt
             status :=
               if q.status = .notVisited ∨ q.status = .notAnswered then .answered
               else q.status } := by
  rw [selectOptionQS, updateAt_get_eq _ _ _ (lt_length_of_get_some hq), hq]
  rfl

/-- C5 witness: instantiating the amended theorem on a one-question array in
status `notAnswered`. -/
theorem c5_selectOption_behaviour_witness :
    (selectOptionQS [{ selectedOptionIndex := none, status := .notAnswered }] 0 1).get? 0 =
      some { selectedOptionIndex := some 1
             status :=
               if QuestionStatus.notAnswered = .notVisited
                   ∨ QuestionStatus.notAnswered = .notAnswered then .answered
               else .notAnswered } :=
  c5_selectOption_behaviour [{ selectedOptionIndex := none, status := .notAnswered }] 0 1
    { selectedOptionIndex := none, status := .notAnswered } rfl

/-- C6 counterexample: the Save and Mark for Review handler sets
`answeredMarked` unconditionally, so a question with no selection ends up
`answeredMarked` — refuting "never answeredMarked without a selection". -/
theorem c6_counterexample :
    (saveAndMarkQS [{ selectedOptionIndex := none, status := .notAnswered }] 0).get? 0 =
      some { selectedOptionIndex := none, status := .answeredMarked }
    ∧ (none : Option Nat).isSome = false := by
  decide

/-- C6 amended: of the two marking handlers, Mark for Review and Next sets
`answeredMarked` when a selection exists and `marked` otherwise, while Save
and Mark for Review sets `answeredMarked` unconditionally, even without a
selection. -/
theorem c6_mark_behaviour (qs : List QState) (i : Nat) (q : QState)
    (hq : qs.get? i = some q) :
    (markNextQS qs i).get? i =
      some { q with
               status := if q.selectedOptionIndex.isSome then .answeredMarked else .marked }
    ∧ (saveAndMarkQS qs i).get? i = some { q with status := .answeredMarked } := by
  constructor
  · rw [markNextQS, updateAt_get_eq _ _ _ (lt_length_of_get_some hq), hq]
    rfl
  · rw [saveAndMarkQS, updateAt_get_eq _ _ _ (lt_length_of_get_some hq), hq]
    rfl

/-- C6 witness: instantiating the amended theorem on a one-question array
with no selection. -/
theorem c6_mark_behaviour_witness :
    (markNextQS [{ selectedOptionIndex := none, status := .notAnswered }] 0).get? 0 =
      some { selectedOptionIndex := none
             status := if (none : Option Nat).isSome then .answeredMarked else .marked }
    ∧ (saveAndMarkQS [{ selectedOptionIndex := none, status := .notAnswered }] 0).get? 0 =
      some { selectedOptionIndex := none, status := .answeredMarked } :=
  c6_mark_behaviour [{ selectedOptionIndex := none, status := .notAnswered }] 0
    { selectedOptionIndex := none, status := .notAnswered } rfl

/-- C7: for every in-range question, selecting then clearing leaves status
`notAnswered` and no selection, and clear alone does so unconditionally
whatever the prior status and selection were. -/
theorem c7_select_then_clear (qs : List QState) (i opt : Nat) (h : i < qs.length) :
    (clearQS (selectOptionQS qs i opt) i).get? i =
      some { selectedOptionIndex := none, status := .notAnswered }
    ∧ (clearQS qs i).get? i = some { selectedOptionIndex := none, status := .notAnswered } := by
  constructor
  · exact clearQS_get _ _ (by rw [selectOptionQS, updateAt_length]; exact h)
  · exact clearQS_get _ _ h

/-! ## Step lemmas for the session event loop -/

/-- No event resets a created attempt: the attempt id is only ever written
once, by a successful `createAttemptResult`. -/
theorem step_attemptId_none {s : SessionState} {e : Event}
    (h : (step s e).attemptId = none) : s.attemptId = none := by
  obtain ⟨tr, tov, sb, sbg, aid, sd, qs, ci, nq, fl, sc⟩ := s
  cases e <;> simp only [step] at h <;> repeat' split at h <;> simp_all

/-- `submitted` is monotone: once the session is submitted it stays so. -/
theorem step_submitted_mono {s : SessionState} {e : Event}
    (h : s.submitted = true) : (step s e).submitted = true := by
  obtain ⟨tr, tov, sb, sbg, aid, sd, qs, ci, nq, fl, sc⟩ := s
  cases e <;> simp only [step] <;> repeat' split <;> simp_all

/-- Once submitted, no event sends another submit request. -/
theorem step_submitted_sentCount {s : SessionState} {e : Event}
    (h : s.submitted = true) : (step s e).sentCount = s.sentCount := by
  obtain ⟨tr, tov, sb, sbg, aid, sd, qs, ci, nq, fl, sc⟩ := s
  cases e <;> simp only [step] <;> repeat' split <;> simp_all [expiryReady]

/-- `studentDetails` is monotone: entered details are never cleared. -/
theorem step_studentDetails_mono {s : SessionState} {e : Event}
    (h : s.studentDetails = true) : (step s e).studentDetails = true := by
  obtain ⟨tr, tov, sb, sbg, aid, sd, qs, ci, nq, fl, sc⟩ := s
  cases e <;> simp only [step] <;> repeat' split <;> simp_all

/-- C7 witness: instantiating on a one-question array in status `marked`. -/
theorem c7_select_then_clear_witness :
    (clearQS (selectOptionQS [{ selectedOptionIndex := some 3, status := .marked }] 0 1) 0).get? 0 =
      some { selectedOptionIndex := none, status := .notAnswered }
    ∧ (clearQS [{ selectedOptionIndex := some 3, status := .marked }] 0).get? 0 =
      some { selectedOptionIndex := none, status := .notAnswered } :=
  c7_select_then_clear [{ selectedOptionIndex := some 3, status := .marked }] 0 1 (by decide)

/-- `timeOver` is monotone: the time-over flag is never reset. -/
theorem step_timeOver_mono {s : SessionState} {e : Event}
    (h : s.timeOver = true) : (step s e).timeOver = true := by
  obtain ⟨tr, tov, sb, sbg, aid, sd, qs, ci, nq, fl, sc⟩ := s
  cases e <;> simp only [step] <;> repeat' split <;> simp_all [expiryReady]

/-- Only the tick event touches the remaining time, and it writes the
clamped decrement. -/
theorem step_timeRemaining_cases (s : SessionState) (e : Event) :
    (step s e).timeRemaining = s.timeRemaining
    ∨ (step s e).timeRemaining =
        (if s.timeRemaining - 1 < 0 then 0 else s.timeRemaining - 1) := by
  obtain ⟨tr, tov, sb, sbg, aid, sd, qs, ci, nq, fl, sc⟩ := s
  cases e with
  | tick =>
      simp only [step]
      split
      · exact Or.inl rfl
      · exact Or.inr rfl
  | expiryCheck => simp only [step]; split <;> exact Or.inl rfl
  | manualSubmit c => simp only [step]; split <;> exact Or.inl rfl
  | submitResponse ok => simp only [step]; split <;> exact Or.inl rfl
  | createAttemptResult res =>
      simp only [step]
      split
      · exact Or.inl rfl
      · cases res <;> exact Or.inl rfl
  | selectOption opt => simp only [step]; split <;> exact Or.inl rfl
  | clear => simp only [step]; split <;> exact Or.inl rfl
  | saveAndMarkForReview => simp only [step]; split <;> exact Or.inl rfl
  | markForReviewAndNext =>
      simp only [step]
      split
      · split <;> exact Or.inl rfl
      · exact Or.inl rfl
  | moveTo idx => simp only [step]; split <;> exact Or.inl rfl
  | saveAndNext =>
      simp only [step]
      split
      · split <;> exact Or.inl rfl
      · exact Or.inl rfl

/-- One step preserves the pre-attempt invariant. -/
theorem noAttemptInv_step (s : SessionState) (e : Event)
    (h : noAttemptInv s) : noAttemptInv (step s e) := by
  intro hn
  obtain ⟨h1, h2, h3, h4⟩ := h (step_attemptId_none hn)
  obtain ⟨tr, tov, sb, sbg, aid, sd, qs, ci, nq, fl, sc⟩ := s
  cases e <;> simp only [step] at hn ⊢ <;> repeat' split <;> simp_all [expiryReady]

/-- C10: in every run from the freshly loaded exam screen, while no attempt
id exists no submit request has been sent (timer-triggered or manual), and
the session has entered neither the time-over nor the submitted state. -/
theorem c10_no_submit_without_attempt (n : Nat) (d : Int) (evs : List Event) :
    noAttemptInv (runTrace (mkInitial n d) evs) := by
  suffices h : ∀ s, noAttemptInv s → noAttemptInv (runTrace s evs) by
    exact h _ fun _ => ⟨rfl, rfl, rfl, rfl⟩
  induction evs with
  | nil => exact fun s h => h
  | cons e rest ih => exact fun s h => ih (step s e) (noAttemptInv_step s e h)

/-- C10 witness: a concrete run in which the countdown reaches zero (and
expiry checks and submit clicks occur) before any attempt exists: nothing
is sent and the session stays out of the time-over and submitted states. -/
theorem c10_witness :
    (runTrace (mkInitial 2 1) [.tick, .expiryCheck, .manualSubmit true, .tick]).sentCount = 0
    ∧ (runTrace (mkInitial 2 1) [.tick, .expiryCheck, .manualSubmit true, .tick]).inFlight = 0
    ∧ (runTrace (mkInitial 2 1) [.tick, .expiryCheck, .manualSubmit true, .tick]).timeOver = false
    ∧ (runTrace (mkInitial 2 1) [.tick, .expiryCheck, .manualSubmit true, .tick]).submitted
        = false :=
  c10_no_submit_without_attempt 2 1 [.tick, .expiryCheck, .manualSubmit true, .tick] (by decide)

/-- C1 counterexample: a manual submit is confirmed with one second left;
the countdown then reaches zero while that request is still in flight, and
the auto-submit effect fires — its guard checks `submitted` (set only when
a response arrives) but not `submitting`, so it does not see the in-flight
manual submission and sends a second submit request for the same attempt.
This refutes "at most one submit request is sent". -/
theorem c1_counterexample :
    (runTrace (mkInitial 1 1)
        [.createAttemptResult (some 1), .manualSubmit true, .tick, .expiryCheck]).sentCount = 2
    ∧ ¬(2 ≤ 1) := by
  decide

/-- C1 amended: it is only entry into the `submitted` state (set when a
submit response succeeds, not when a request is sent) that makes every
later submit attempt — auto or manual — a no-op that sends nothing; while
the first request is still in flight the other path may send a second
request, so at-most-one-scoring is enforced by the server-side
AlreadySubmitted guard, not by the client. -/
theorem c1_submitted_is_final (s : SessionState) (evs : List Event)
    (h : s.submitted = true) :
    (runTrace s evs).sentCount = s.sentCount ∧ (runTrace s evs).submitted = true := by
  induction evs generalizing s with
  | nil => exact ⟨rfl, h⟩
  | cons e rest ih =>
      obtain ⟨ha, hb⟩ := ih (step s e) (step_submitted_mono h)
      refine ⟨?_, hb⟩
      calc (runTrace (step s e) rest).sentCount
          = (step s e).sentCount := ha
        _ = s.sentCount := step_submitted_sentCount h

/-- C1 witness: from a submitted session, submit clicks, expiry checks and
ticks send nothing and the session stays submitted. -/
theorem c1_submitted_is_final_witness :
    (runTrace { mkInitial 1 5 with submitted := true }
        [.manualSubmit true, .expiryCheck, .tick]).sentCount
      = ({ mkInitial 1 5 with submitted := true } : SessionState).sentCount
    ∧ (runTrace { mkInitial 1 5 with submitted := true }
        [.manualSubmit true, .expiryCheck, .tick]).submitted = true :=
  c1_submitted_is_final { mkInitial 1 5 with submitted := true }
    [.manualSubmit true, .expiryCheck, .tick] rfl

/-- C2 counterexample: in the freshly loaded state — no attempt created, no
student details entered — a timer tick already decrements the remaining
time, so the Clock countdown runs before (and regardless of whether)
AttemptService.createAttempt succeeds, refuting the atomic-start claim. -/
theorem c2_counterexample :
    (mkInitial 3 10).attemptId = none
    ∧ (mkInitial 3 10).studentDetails = false
    ∧ (step (mkInitial 3 10) .tick).timeRemaining = 9 := by
  decide

/-- C2 amended: when attempt creation fails the session state is unchanged
(neither the state machine nor the proctoring precondition starts); on
success the AttemptStateMachine is initialized together with the attempt
id and details flag that gate the ProctoringMonitor effects; the Clock
countdown, however, runs from exam load, before and independently of
attempt creation. -/
theorem c2_start_behaviour (s : SessionState) (id : Nat) :
    step s (.createAttemptResult none) = s
    ∧ (s.studentDetails = false →
        (step s (.createAttemptResult (some id))).attemptId = some id
        ∧ (step s (.createAttemptResult (some id))).studentDetails = true
        ∧ (step s (.createAttemptResult (some id))).questionState
            = initQuestionState s.numQuestions
        ∧ (step s (.createAttemptResult (some id))).currentIndex = 0
        ∧ (step s (.createAttemptResult (some id))).timeRemaining = s.timeRemaining)
    ∧ (0 < s.timeRemaining → s.timeOver = false → s.submitted = false →
        (step s .tick).timeRemaining = s.timeRemaining - 1) := by
  obtain ⟨tr, tov, sb, sbg, aid, sd, qs, ci, nq, fl, sc⟩ := s
  refine ⟨?_, ?_, ?_⟩
  · simp only [step]
    split <;> rfl
  · intro hd
    simp only [step]
    simp_all
  · intro h1 h2 h3
    subst h2
    subst h3
    simp only [step]
    split
    · simp_all <;> omega
    · show (if tr - 1 < 0 then 0 else tr - 1) = tr - 1
      split <;> omega

/-- C2 witness: instantiating the amended theorem on a fresh 2-question,
7-second session. -/
theorem c2_start_behaviour_witness :
    (step (mkInitial 2 7) (.createAttemptResult (some 5))).attemptId = some 5
    ∧ (step (mkInitial 2 7) .tick).timeRemaining = 7 - 1 :=
  ⟨((c2_start_behaviour (mkInitial 2 7) 5).2.1 rfl).1,
   (c2_start_behaviour (mkInitial 2 7) 5).2.2 (by decide) rfl rfl⟩

/-- C3 counterexample: one physical fullscreen loss delivered as two
duplicate change events in the same browser task (standard plus
vendor-prefixed): both invocations read the same captured `isFullscreen`
closure value, both pass the loss guard, and the exit is reported twice —
a counter of 2 for 1 real loss, refuting "exactly n, never more". -/
theorem c3_counterexample :
    (deliverDuplicates 2 true { isFullscreen := true, exitCount := 0 }).exitCount = 2
    ∧ (2 : Nat) ≠ 1 := by
  decide

/-- C3 amended: when each physical loss reaches the handler as a single
detection (the listener closure refreshed by a re-render between losses),
n acknowledged losses yield a counter of exactly n and the session ends
back in fullscreen; but duplicate detections sharing one captured snapshot
each increment the counter, so a single physical loss can be counted more
than once. -/
theorem c3_single_detection_exact (n : Nat) :
    iterLossReenter n { isFullscreen := true, exitCount := 0 } =
      { isFullscreen := true, exitCount := n } := by
  suffices h : ∀ c, iterLossReenter n { isFullscreen := true, exitCount := c } =
      { isFullscreen := true, exitCount := c + n } by
    simpa using h 0
  induction n with
  | zero => intro c; rfl
  | succ n ih =>
      intro c
      show iterLossReenter n (lossThenReenter { isFullscreen := true, exitCount := c }) = _
      have hstep : lossThenReenter { isFullscreen := true, exitCount := c } =
          { isFullscreen := true, exitCount := c + 1 } := by
        simp [lossThenReenter, handleFullscreenChange]
      rw [hstep, ih (c + 1)]
      congr 1
      omega

/-- C9: the countdown never goes negative; a tick from a positive remaining
time decrements by exactly one and a tick at or below zero does nothing;
the time-over flag is monotone, is set by the expiry check exactly when
the guard (remaining = 0, not yet over, not submitted, attempt exists)
holds — so it fires exactly once per session — and firing sends the one
auto-submit request. -/
theorem c9_clock_behaviour (s : SessionState) (e : Event) (n : Int) :
    (0 ≤ s.timeRemaining → 0 ≤ (step s e).timeRemaining)
    ∧ (s.timeRemaining = n + 1 → 0 ≤ n → s.timeOver = false → s.submitted = false →
        (step s .tick).timeRemaining = n)
    ∧ (s.timeRemaining ≤ 0 → step s .tick = s)
    ∧ (s.timeOver = true → (step s e).timeOver = true)
    ∧ (expiryReady s →
        (step s .expiryCheck).timeOver = true
        ∧ (step s .expiryCheck).sentCount = s.sentCount + 1)
    ∧ ((step s e).timeOver = true → s.timeOver = true ∨ (e = .expiryCheck ∧ expiryReady s)) := by
  refine ⟨?_, ?_, ?_, ?_, ?_, ?_⟩
  · intro h0
    rcases step_timeRemaining_cases s e with h | h
    · rw [h]; exact h0
    · rw [h]; split <;> omega
  · intro h1 h2 h3 h4
    obtain ⟨tr, tov, sb, sbg, aid, sd, qs, ci, nq, fl, sc⟩ := s
    subst h3
    subst h4
    simp only at h1
    subst h1
    simp only [step]
    split
    · simp_all <;> omega
    · show (if n + 1 - 1 < 0 then 0 else n + 1 - 1) = n
      split <;> omega
  · intro h1
    obtain ⟨tr, tov, sb, sbg, aid, sd, qs, ci, nq, fl, sc⟩ := s
    simp only [step]
    simp_all
  · exact step_timeOver_mono
  · intro h
    exact ⟨by simp [step, if_pos h], by simp [step, if_pos h]⟩
  · intro h
    obtain ⟨tr, tov, sb, sbg, aid, sd, qs, ci, nq, fl, sc⟩ := s
    cases e <;> simp only [step] at h <;> repeat' split at h <;> simp_all

/-- One in-place update cannot move a slot back to `notVisited` when the
update function cannot. -/
theorem statusOf_updateAt (qs : List QState) (i : Nat) (f : QState → QState) (j : Nat)
    (hf : ∀ q, q.status ≠ .notVisited → (f q).status ≠ .notVisited)
    (h : statusOf qs j ≠ .notVisited) :
    statusOf (updateAt qs i f) j ≠ .notVisited := by
  unfold updateAt
  cases hq : qs.get? i with
  | none => exact h
  | some q =>
      by_cases hji : j = i
      · subst hji
        unfold statusOf at h ⊢
        rw [List.get?_set_eq_of_lt _ (lt_length_of_get_some hq)]
        rw [hq] at h
        simpa using hf q (by simpa using h)
      · unfold statusOf at h ⊢
        rw [List.get?_set_ne _ _ fun hij => hji hij.symm]
        exact h

/-- The notVisited-to-notAnswered promotion of `moveToQuestion` cannot move
any slot back to `notVisited`. -/
theorem statusOf_visit (qs : List QState) (i j : Nat)
    (h : statusOf qs j ≠ .notVisited) :
    statusOf (visitIfNotVisited qs i) j ≠ .notVisited := by
  unfold visitIfNotVisited
  cases hq : qs.get? i with
  | none => exact h
  | some q =>
      show statusOf
          (if q.status = .notVisited then
            qs.set i { selectedOptionIndex := q.selectedOptionIndex, status := .notAnswered }
          else qs) j ≠ .notVisited
      by_cases hst : q.status = .notVisited
      · rw [if_pos hst]
        by_cases hji : j = i
        · subst hji
          unfold statusOf
          rw [List.get?_set_eq_of_lt _ (lt_length_of_get_some hq)]
          simp
        · unfold statusOf at h ⊢
          rw [List.get?_set_ne _ _ fun hij => hji hij.symm]
          exact h
      · rw [if_neg hst]
        exact h

/-- No single event of a running exam screen session moves a question back
to `notVisited`. -/
theorem statusOf_step (s : SessionState) (e : Event) (j : Nat)
    (hd : s.studentDetails = true)
    (h : statusOf s.questionState j ≠ .notVisited) :
    statusOf (step s e).questionState j ≠ .notVisited := by
  have hsel : ∀ opt : Nat, ∀ q : QState, q.status ≠ .notVisited →
      (QState.status
        { selectedOptionIndex := some opt
          status :=
            if q.status = .notVisited ∨ q.status = .notAnswered then .answered
            else q.status }) ≠ .notVisited := by
    intro opt q hq
    dsimp only
    split
    · simp
    · exact hq
  have hclear : ∀ q : QState, q.status ≠ .notVisited →
      (QState.status { q with selectedOptionIndex := none, status := .notAnswered })
        ≠ .notVisited := by
    intro q _
    simp
  have hsave : ∀ q : QState, q.status ≠ .notVisited →
      (QState.status { q with status := .answeredMarked }) ≠ .notVisited := by
    intro q _
    simp
  have hmark : ∀ q : QState, q.status ≠ .notVisited →
      (QState.status
        { q with status := if q.selectedOptionIndex.isSome then .answeredMarked else .marked })
        ≠ .notVisited := by
    intro q _
    dsimp only
    split <;> simp
  cases e with
  | tick => simp only [step]; split <;> exact h
  | expiryCheck => simp only [step]; split <;> exact h
  | manualSubmit c => simp only [step]; split <;> exact h
  | submitResponse ok => simp only [step]; split <;> exact h
  | createAttemptResult res =>
      simp only [step, if_pos hd]
      exact h
  | selectOption opt =>
      simp only [step]
      split
      · exact statusOf_updateAt _ _ _ _ (hsel opt) h
      · exact h
  | clear =>
      simp only [step]
      split
      · exact statusOf_updateAt _ _ _ _ hclear h
      · exact h
  | saveAndMarkForReview =>
      simp only [step]
      split
      · exact statusOf_updateAt _ _ _ _ hsave h
      · exact h
  | markForReviewAndNext =>
      simp only [step]
      split
      · split
        · exact statusOf_visit _ _ _
            (statusOf_visit _ _ _ (statusOf_updateAt _ _ _ _ hmark h))
        · exact statusOf_updateAt _ _ _ _ hmark h
      · exact h
  | moveTo idx =>
      simp only [step]
      split
      · exact statusOf_visit _ _ _ (statusOf_visit _ _ _ h)
      · exact h
  | saveAndNext =>
      simp only [step]
      split
      · split
        · exact statusOf_visit _ _ _ (statusOf_visit _ _ _ h)
        · exact h
      · exact h

/-- C8: over every sequence of select / clear / mark / visit / navigation /
timer / submission events applied after the attempt has started (student
details entered), a question whose status is not `notVisited` never
returns to `notVisited`. -/
theorem c8_never_back_to_notVisited (s : SessionState) (evs : List Event) (j : Nat)
    (hd : s.studentDetails = true)
    (h : statusOf s.questionState j ≠ .notVisited) :
    statusOf (runTrace s evs).questionState j ≠ .notVisited := by
  induction evs generalizing s with
  | nil => exact h
  | cons e rest ih =>
      exact ih (step s e) (step_studentDetails_mono hd) (statusOf_step s e j hd h)

/-- C8 witness: after starting a 2-question attempt, clearing, navigating
and selecting never sends question 0 back to `notVisited`. -/
theorem c8_never_back_to_notVisited_witness :
    statusOf (runTrace (step (mkInitial 2 5) (.createAttemptResult (some 1)))
        [.clear, .moveTo 1, .selectOption 0, .saveAndMarkForReview]).questionState 0
      ≠ .notVisited :=
  c8_never_back_to_notVisited (step (mkInitial 2 5) (.createAttemptResult (some 1)))
    [.clear, .moveTo 1, .selectOption 0, .saveAndMarkForReview] 0 (by decide) (by decide)

/-- C9 witness: a tick from 5 seconds on an in-progress session lands on 4
and stays non-negative; the expiry check on a ready session at zero sets
time-over. -/
theorem c9_clock_behaviour_witness :
    (0 : Int) ≤ (step { mkInitial 2 5 with studentDetails := true, attemptId := some 1 }
        .tick).timeRemaining
    ∧ (step { mkInitial 2 5 with studentDetails := true, attemptId := some 1 }
        .tick).timeRemaining = 4
    ∧ (step { mkInitial 2 0 with studentDetails := true, attemptId := some 1 }
        .expiryCheck).timeOver = true :=
  ⟨(c9_clock_behaviour { mkInitial 2 5 with studentDetails := true, attemptId := some 1 }
      .tick 4).1 (by decide),
   (c9_clock_behaviour { mkInitial 2 5 with studentDetails := true, attemptId := some 1 }
      .tick 4).2.1 (by decide) (by decide) rfl rfl,
   ((c9_clock_behaviour { mkInitial 2 0 with studentDetails := true, attemptId := some 1 }
      .expiryCheck 0).2.2.2.2.1 (by decide)).1⟩

end ExamPlatform
